import Mathlib

/-!
Shallow embedding of the Nebula-Protocol local knowledge graph
(`local_kg/local_kg.py`) and its central-sync reconciler
(`local_kg/sync.py`), together with theorems settling the frozen
claims about the natural-language specification.

Conventions of the embedding:
* SQLite tables become Lean lists of rows; `uuid.uuid4()` becomes a
  fresh-id counter threaded through the state; `CURRENT_TIMESTAMP`
  becomes a `now : Nat` field.
* Python floats are modelled as rationals (`ℚ`); Python `round(x, 2)`
  becomes `round2` (round-half-even on rationals, mirroring Python's
  banker's rounding).
* Network calls of the reconciler are modelled by an explicit
  environment (`SyncEnv`) recording, for each remote request, whether
  it succeeds, fails with an HTTP error handled inside the helper, or
  raises an exception that the surrounding loop catches.
-/

namespace Nebula

/-! ## Local knowledge graph (`local_kg/local_kg.py`) — data model -/

/-- Models `hashlib.md5(s.encode()).hexdigest()` as an abstract but
deterministic, total content hash of the input string.  No claim
depends on the actual MD5 value, only on determinism and totality. -/
def md5Hex (s : String) : String :=
  "md5-" ++ toString (s.foldl (fun h c => (h * 131 + c.toNat) % (2 ^ 128)) 7)

/-- Models a Python f-string interpolation of an `Optional[str]`:
`None` renders as the string "None". -/
def fString (o : Option String) : String := o.getD "None"

/-- Structured `metadata` column of the `events` table.  `capture_error`
fills severity/category/context/signature; `add_solution` fills
effectiveness/target; rows from other producers may fill any subset. -/
structure EventMeta where
  severity : Option String
  category : Option String
  context : Option String
  signature : Option String
  effectiveness : Option ℚ
  target : Option String
deriving Repr, DecidableEq

/-- A row of the `events` table (Universal Schema). -/
structure Event where
  id : Nat
  type : String
  phase : String
  content : String
  metadata : EventMeta
  created_at : Nat
deriving Repr, DecidableEq

/-- A row of the `patterns` table (Universal Schema). -/
structure Pattern where
  id : Nat
  signature : String
  category : Option String
  description : Option String
  occurrence_count : Nat
  solution : Option String
  first_seen_at : Nat
  last_seen_at : Nat
deriving Repr, DecidableEq

/-- State of one `LocalKG` store: the two tables plus the fresh-id
counter (modelling `uuid.uuid4()`) and the current clock. -/
structure KGState where
  events : List Event
  patterns : List Pattern
  nextId : Nat
  now : Nat
deriving Repr, DecidableEq

/-- A freshly initialized store (empty tables). -/
def emptyKG : KGState := { events := [], patterns := [], nextId := 0, now := 0 }

/-! ## `LocalKG.capture_error` and `LocalKG.add_solution` -/

/-- Signature resolution of `capture_error` (local_kg.py line 50):
`sig = error_signature or hashlib.md5((description or "").encode()).hexdigest()`.
An empty (falsy) supplied signature falls back to the hash of the
description, with a missing or empty description hashing `""`. -/
def resolve_sig (error_signature : String) (description : Option String) : String :=
  if error_signature = "" then md5Hex (description.getD "") else error_signature

/-- The `error` event row inserted by `capture_error` (local_kg.py
lines 52–70): content is `description or f"Error: {error_category}"`,
metadata carries severity, category, context and the resolved
signature. -/
def capture_event (st : KGState) (error_signature : String)
    (error_category : Option String) (description : Option String)
    (context : Option String) (severity : String) : Event :=
  { id := st.nextId, type := "error", phase := "UNKNOWN",
    content :=
      match description with
      | some d => if d = "" then "Error: " ++ fString error_category else d
      | none => "Error: " ++ fString error_category,
    metadata :=
      { severity := some severity, category := error_category,
        context := context,
        signature := some (resolve_sig error_signature description),
        effectiveness := none, target := none },
    created_at := st.now }

/-- `LocalKG.capture_error` (local_kg.py lines 35–93): append an
`error` event carrying the resolved signature in its metadata, then
upsert the pattern row with that signature (increment
`occurrence_count` and refresh `last_seen_at` if present, else insert
with `occurrence_count = 1`).  Returns the new state and the event id. -/
def capture_error (st : KGState) (error_signature : String)
    (error_category : Option String) (description : Option String)
    (context : Option String) (severity : String) : KGState × Nat :=
  let sig := resolve_sig error_signature description
  let event_id := st.nextId
  let ev : Event :=
    capture_event st error_signature error_category description context severity
  let st1 : KGState :=
    { st with events := st.events ++ [ev], nextId := st.nextId + 1 }
  match st1.patterns.find? (fun p => p.signature == sig) with
  | some existing =>
      ({ st1 with
          patterns := st1.patterns.map (fun p =>
            if p.id = existing.id then
              { p with occurrence_count := p.occurrence_count + 1,
                       last_seen_at := st.now }
            else p) },
       event_id)
  | none =>
      let pattern_id := st1.nextId
      ({ st1 with
          patterns := st1.patterns ++
            [{ id := pattern_id, signature := sig,
               category := error_category, description := description,
               occurrence_count := 1, solution := none,
               first_seen_at := st.now, last_seen_at := st.now }],
          nextId := st1.nextId + 1 },
       event_id)

/-- `LocalKG.add_solution` (local_kg.py lines 95–129): append a
`solution` event carrying effectiveness and target signature, and —
only when `effectiveness >= 4` — overwrite the `solution` field of the
pattern rows whose signature matches (`UPDATE patterns SET solution = ?
WHERE signature = ?`).  Returns the new state and the event id. -/
def add_solution (st : KGState) (error_signature : String)
    (solution_text : String) (effectiveness : Int) : KGState × Nat :=
  let event_id := st.nextId
  let ev : Event :=
    { id := event_id, type := "solution", phase := "UNKNOWN",
      content := solution_text,
      metadata :=
        { severity := none, category := none, context := none,
          signature := none, effectiveness := some (effectiveness : ℚ),
          target := some error_signature },
      created_at := st.now }
  let st1 : KGState :=
    { st with events := st.events ++ [ev], nextId := st.nextId + 1 }
  if 4 ≤ effectiveness then
    ({ st1 with
        patterns := st1.patterns.map (fun p =>
          if p.signature == error_signature then
            { p with solution := some solution_text }
          else p) },
     event_id)
  else
    (st1, event_id)

/-! ## `LocalKG.get_advanced_stats` -/

/-- Round a rational to the nearest integer, ties to even — the
behaviour of Python's built-in `round` (banker's rounding), transported
to rationals. -/
def roundHalfEven (q : ℚ) : ℤ :=
  let f := ⌊q⌋
  let r := q - (f : ℚ)
  if r < 1 / 2 then f
  else if 1 / 2 < r then f + 1
  else if f % 2 = 0 then f else f + 1

/-- Python's `round(x, 2)` on rationals. -/
def round2 (q : ℚ) : ℚ := ((roundHalfEven (q * 100) : ℤ) : ℚ) / 100

/-- The numeric effectiveness values carried by `solution` events —
the rows selected by
`SELECT ... FROM events WHERE type='solution' AND
 json_extract(metadata, '$.effectiveness') IS NOT NULL`. -/
def solutionEffs (st : KGState) : List ℚ :=
  (st.events.filter (fun e => e.type == "solution")).filterMap
    (fun e => e.metadata.effectiveness)

/-- Result dictionary of `get_advanced_stats`.  `quality` models the
key `stats['quality_ratio']`, `ai_effectiveness` the key
`stats['ai_effectiveness']`, `daily_velocity` the key
`stats['daily_velocity']`. -/
structure Stats where
  quality : ℚ
  ai_effectiveness : ℚ
  daily_velocity : Nat
deriving Repr, DecidableEq

/-- Seconds in the `-1 day` window of the velocity query. -/
def oneDaySeconds : Nat := 86400

/-- `LocalKG.get_advanced_stats` (local_kg.py lines 175–208):
`quality` is `round(error_count / max(milestone_count, 1), 2)`;
`ai_effectiveness` is `round(result, 2) if result else 0.0` where
`result` is the SQL `AVG` (NULL when no rows, hence the `Option`);
`daily_velocity` counts events of the last day. -/
def get_advanced_stats (st : KGState) : Stats :=
  let error_count := st.events.countP (fun e => e.type == "error")
  let milestone_count := st.events.countP (fun e => e.type == "milestone")
  let quality := round2 ((error_count : ℚ) / ((max milestone_count 1 : Nat) : ℚ))
  let effs := solutionEffs st
  let result : Option ℚ :=
    if effs.isEmpty then none else some (effs.sum / (effs.length : ℚ))
  let ai : ℚ :=
    match result with
    | some a => if a = 0 then 0 else round2 a
    | none => 0
  let velocity := st.events.countP (fun e => st.now < e.created_at + oneDaySeconds)
  { quality := quality, ai_effectiveness := ai, daily_velocity := velocity }

/-! ## Sequences of captures (for the uniqueness invariant) -/

/-- The non-signature arguments of one `capture_error` call. -/
structure CaptureArgs where
  error_category : Option String
  description : Option String
  context : Option String
  severity : String
deriving Repr, DecidableEq

/-- Run a sequence of `capture_error` calls, all with the same
supplied signature, threading the store state. -/
def captureSeq (st : KGState) (sig : String) : List CaptureArgs → KGState
  | [] => st
  | a :: rest =>
      captureSeq
        (capture_error st sig a.error_category a.description a.context a.severity).1
        sig rest

/-! ## Sync reconciler (`local_kg/sync.py`) — data model

The reconciler operates on the `local_patterns` / `local_solutions`
schema.  The `LocalKG` accessor methods it calls
(`get_unsynced_patterns`, `mark_pattern_synced`,
`get_unsynced_solutions`, `mark_solution_synced`) and that schema are
not part of the sources here; they are modelled from the spec (§4.2):
"patterns/solutions whose remote-identifier field is unset" are the
unsynced ones, and `markSynced(localId, remoteId)` "sets the
remote-identifier field". -/

/-- A row of the `local_patterns` table, as consumed by the
reconciler: `central_pattern_id` is the nullable remote identifier. -/
structure LPattern where
  id : Nat
  error_signature : String
  error_category : String
  language : String
  description : String
  technologies : List String
  context_json : Option String
  central_pattern_id : Option String
deriving Repr, DecidableEq

/-- A row of the `local_solutions` table, as consumed by the
reconciler: `central_solution_id` is the nullable remote identifier
set by `mark_solution_synced`. -/
structure LSolution where
  id : Nat
  pattern_id : Nat
  title : String
  description : String
  code_snippet : Option String
  technologies : List String
  central_solution_id : Option String
deriving Repr, DecidableEq

/-- The local store as seen by the reconciler. -/
structure LocalStore where
  patterns : List LPattern
  solutions : List LSolution
deriving Repr, DecidableEq

/-- Modelled from the spec: `LocalKG.get_unsynced_patterns` (absent
from the sources) returns the patterns whose remote-identifier field
is unset. -/
def get_unsynced_patterns (st : LocalStore) : List LPattern :=
  st.patterns.filter (fun p => p.central_pattern_id.isNone)

/-- Modelled from the spec: `LocalKG.mark_pattern_synced` (absent from
the sources) sets the remote-identifier field of the pattern with the
given local id. -/
def mark_pattern_synced (st : LocalStore) (pid : Nat) (cid : String) : LocalStore :=
  { st with
      patterns := st.patterns.map (fun p =>
        if p.id = pid then { p with central_pattern_id := some cid } else p) }

/-- Modelled from the spec: `LocalKG.get_unsynced_solutions` (absent
from the sources) returns the solutions whose remote-identifier field
is unset. -/
def get_unsynced_solutions (st : LocalStore) : List LSolution :=
  st.solutions.filter (fun s => s.central_solution_id.isNone)

/-- Modelled from the spec: `LocalKG.mark_solution_synced` (absent
from the sources) sets the remote-identifier field of the solution
with the given local id. -/
def mark_solution_synced (st : LocalStore) (sid : Nat) (cid : String) : LocalStore :=
  { st with
      solutions := st.solutions.map (fun s =>
        if s.id = sid then { s with central_solution_id := some cid } else s) }

/-- The truthy central pattern id of a local pattern, mirroring
sync.py lines 206–213: `SELECT central_pattern_id FROM local_patterns
WHERE id = ?` followed by `if row and row[0]` — the row must exist and
the value must be non-NULL and non-empty. -/
def central_cid_of (st : LocalStore) (pid : Nat) : Option String :=
  match st.patterns.find? (fun p => p.id = pid) with
  | none => none
  | some p =>
      match p.central_pattern_id with
      | none => none
      | some c => if c = "" then none else some c

/-! ## Sync reconciler — remote environment -/

/-- Outcome of one `_sync_pattern` call (sync.py lines 252–288) for a
given pattern, as observed by the loop in `sync_all`:
* `success cid` — the POST returned 2xx and `_sync_pattern` returned
  the string `cid` (line 284);
* `httpError` — an `httpx.HTTPError` was raised and caught inside
  `_sync_pattern`, which returned `None` (lines 286–288);
* `exn msg` — some other exception escaped `_sync_pattern` and is
  caught by the loop in `sync_all` (lines 188–191). -/
inductive PatternOutcome where
  | success (cid : String)
  | httpError
  | exn (msg : String)
deriving Repr, DecidableEq

/-- Outcome of the batch POST to `/api/v1/sync/solutions` (sync.py
lines 230–239): `success accepted failed` is a 2xx response whose JSON
carries those counts; `exn msg` is any exception raised by the POST,
by `raise_for_status`, or by JSON decoding, caught at lines 245–248. -/
inductive BatchOutcome where
  | success (accepted : Nat) (failed : Nat)
  | exn (msg : String)
deriving Repr, DecidableEq

/-- One element of the batch payload (sync.py lines 214–221). -/
structure SolutionPayload where
  pattern_id : String
  title : String
  description : String
  code_snippet : Option String
  difficulty_level : String
  technologies : List String
deriving Repr, DecidableEq

/-- The remote authority and network, abstracted: the result of the
connectivity probe (`check_connection`, sync.py lines 136–150), the
response to each single-pattern submission, and the response to a
batch solution submission. -/
structure SyncEnv where
  health : Bool
  patternResp : LPattern → PatternOutcome
  batchResp : List SolutionPayload → BatchOutcome

/-- The summary dictionary returned by `sync_all`. -/
structure Summary where
  patterns_synced : Nat
  patterns_failed : Nat
  solutions_synced : Nat
  solutions_failed : Nat
  errors : List String
deriving Repr, DecidableEq

/-- The all-zero summary `sync_all` starts from (sync.py lines
168–174). -/
def init_summary : Summary :=
  { patterns_synced := 0, patterns_failed := 0,
    solutions_synced := 0, solutions_failed := 0, errors := [] }

/-! ## Sync reconciler — the pass -/

/-- One iteration of the pattern loop (sync.py lines 180–191): on a
truthy central id, mark the pattern synced and bump `patterns_synced`;
on a falsy result (`None` from a handled HTTP error, or an empty
string) bump `patterns_failed`; on an escaped exception bump
`patterns_failed` and append the message to `errors`. -/
def sync_pattern_step (env : SyncEnv) (acc : LocalStore × Summary)
    (p : LPattern) : LocalStore × Summary :=
  match env.patternResp p with
  | PatternOutcome.success cid =>
      if cid = "" then
        (acc.1, { acc.2 with patterns_failed := acc.2.patterns_failed + 1 })
      else
        (mark_pattern_synced acc.1 p.id cid,
         { acc.2 with patterns_synced := acc.2.patterns_synced + 1 })
  | PatternOutcome.httpError =>
      (acc.1, { acc.2 with patterns_failed := acc.2.patterns_failed + 1 })
  | PatternOutcome.exn m =>
      (acc.1, { acc.2 with patterns_failed := acc.2.patterns_failed + 1,
                           errors := acc.2.errors ++ [m] })

/-- The pattern loop of `sync_all`, iterating over the list of
patterns fetched once at the start of the phase. -/
def run_pattern_loop (env : SyncEnv) :
    List LPattern → LocalStore → Summary → LocalStore × Summary
  | [], st, s => (st, s)
  | p :: rest, st, s =>
      let step := sync_pattern_step env (st, s) p
      run_pattern_loop env rest step.1 step.2

/-- Pattern phase of one pass (sync.py lines 176–191). -/
def pattern_phase (env : SyncEnv) (st : LocalStore) : LocalStore × Summary :=
  run_pattern_loop env (get_unsynced_patterns st) st init_summary

/-- Payload built for one solution whose pattern has the truthy
central id `cid` (sync.py lines 214–221). -/
def solution_payload (cid : String) (sol : LSolution) : SolutionPayload :=
  { pattern_id := cid, title := sol.title, description := sol.description,
    code_snippet := sol.code_snippet, difficulty_level := "intermediate",
    technologies := sol.technologies }

/-- Batch construction (sync.py lines 200–226): traverse the unsynced
solutions in order; a solution whose pattern has a truthy central id
contributes a payload and its local id to `solution_map`; any other
solution bumps the skipped counter (`solutions_failed` increment at
line 226).  Returns (payloads, included local ids, skipped count). -/
def build_batch (st : LocalStore) :
    List LSolution → List SolutionPayload × List Nat × Nat
  | [] => ([], [], 0)
  | sol :: rest =>
      let r := build_batch st rest
      match central_cid_of st sol.pattern_id with
      | some cid => (solution_payload cid sol :: r.1, sol.id :: r.2.1, r.2.2)
      | none => (r.1, r.2.1, r.2.2 + 1)

/-- Solution phase of one pass (sync.py lines 193–248), starting from
the store state and summary left by the pattern phase.  If the batch
POST returns 2xx, `solutions_synced`/`solutions_failed` take the
response's accepted/failed counts and every included solution is
marked synced; if it raises, `solutions_failed` gains
`len(solutions)` and the message is appended to `errors`. -/
def solution_phase (env : SyncEnv) (st : LocalStore) (summary : Summary) :
    LocalStore × Summary :=
  let sols := get_unsynced_solutions st
  if sols.isEmpty then (st, summary)
  else
    let b := build_batch st sols
    let summary1 :=
      { summary with solutions_failed := summary.solutions_failed + b.2.2 }
    if b.1.isEmpty then (st, summary1)
    else
      match env.batchResp b.1 with
      | BatchOutcome.success accepted failed =>
          let summary2 :=
            { summary1 with
                solutions_synced := summary1.solutions_synced + accepted,
                solutions_failed := summary1.solutions_failed + failed }
          (b.2.1.foldl (fun s sid => mark_solution_synced s sid "batch-synced") st,
           summary2)
      | BatchOutcome.exn m =>
          (st, { summary1 with
                   solutions_failed := summary1.solutions_failed + sols.length,
                   errors := summary1.errors ++ [m] })

/-- `CentralKGSync.sync_all` (sync.py lines 152–250): fail fast with a
fixed summary when the connectivity probe fails, otherwise run the
pattern phase followed by the solution phase and return the final
store state and summary. -/
def sync_all (env : SyncEnv) (st : LocalStore) : LocalStore × Summary :=
  if env.health = false then
    (st, { patterns_synced := 0, patterns_failed := 0,
           solutions_synced := 0, solutions_failed := 0,
           errors := ["Could not connect to Central KG"] })
  else
    let pr := pattern_phase env st
    solution_phase env pr.1 pr.2

/-- Does the attempt to sync this pattern end in the failed branch of
the loop (sync.py lines 186–191)?  True on a falsy returned id
(handled HTTP error or empty string) and on an escaped exception. -/
def patternFails (env : SyncEnv) (p : LPattern) : Bool :=
  match env.patternResp p with
  | PatternOutcome.success cid => cid == ""
  | PatternOutcome.httpError => true
  | PatternOutcome.exn _ => true

/-- The outcome of the batch POST actually performed by a pass, if one
is performed at all: `none` when the probe fails, when there are no
unsynced solutions, or when the batch payload is empty. -/
def batchOutcomeOf (env : SyncEnv) (st : LocalStore) : Option BatchOutcome :=
  if env.health = false then none
  else
    let pr := pattern_phase env st
    let sols := get_unsynced_solutions pr.1
    if sols.isEmpty then none
    else
      let b := build_batch pr.1 sols
      if b.1.isEmpty then none else some (env.batchResp b.1)

/-- The batch triple (payloads, included local solution ids, skipped
count) that a pass with a succeeding probe builds: batch construction
runs on the store state left by the pattern phase. -/
def sync_batch_of (env : SyncEnv) (st : LocalStore) :
    List SolutionPayload × List Nat × Nat :=
  build_batch (pattern_phase env st).1
    (get_unsynced_solutions (pattern_phase env st).1)

/-! ## Concrete stores and environments used by witnesses -/

/-- An event with empty metadata, for building concrete stores. -/
def mkEvent (i : Nat) (t : String) : Event :=
  { id := i, type := t, phase := "UNKNOWN", content := "",
    metadata := { severity := none, category := none, context := none,
                  signature := none, effectiveness := none, target := none },
    created_at := 0 }

/-- A `solution` event carrying a numeric effectiveness. -/
def mkSolEvent (i : Nat) (q : ℚ) : Event :=
  { mkEvent i "solution" with
      metadata := { severity := none, category := none, context := none,
                    signature := none, effectiveness := some q, target := none } }

/-- Arguments of three concrete `capture_error` calls. -/
def exArgs : List CaptureArgs :=
  [{ error_category := none, description := none, context := none, severity := "medium" },
   { error_category := some "TypeError", description := some "bad type",
     context := none, severity := "high" },
   { error_category := none, description := some "", context := none, severity := "low" }]

/-- A store holding one pattern with signature "E1" (occurrence 3). -/
def exPatternSt : KGState := captureSeq emptyKG "E1" exArgs

/-- A store with one error event and three milestone events. -/
def exQualitySt : KGState :=
  { events := [mkEvent 0 "error", mkEvent 1 "milestone",
               mkEvent 2 "milestone", mkEvent 3 "milestone"],
    patterns := [], nextId := 4, now := 0 }

/-- A store with two solution events of effectiveness 5 and 4. -/
def exEffSt : KGState :=
  { events := [mkSolEvent 0 5, mkSolEvent 1 4], patterns := [], nextId := 2, now := 0 }

/-- A local pattern already acknowledged by the remote. -/
def exLPatternSynced : LPattern :=
  { id := 1, error_signature := "sig-a", error_category := "runtime",
    language := "python", description := "a", technologies := [],
    context_json := none, central_pattern_id := some "cp-1" }

/-- A local pattern not yet acknowledged by the remote. -/
def exLPatternUnsynced : LPattern :=
  { id := 2, error_signature := "sig-b", error_category := "runtime",
    language := "python", description := "b", technologies := [],
    context_json := none, central_pattern_id := none }

/-- A local solution owned by the synced pattern. -/
def exLSolutionReady : LSolution :=
  { id := 10, pattern_id := 1, title := "t1", description := "d1",
    code_snippet := none, technologies := [], central_solution_id := none }

/-- A local solution owned by the unsynced pattern. -/
def exLSolutionBlocked : LSolution :=
  { id := 11, pattern_id := 2, title := "t2", description := "d2",
    code_snippet := none, technologies := [], central_solution_id := none }

/-- A concrete local store for reconciliation runs. -/
def exStore : LocalStore :=
  { patterns := [exLPatternSynced, exLPatternUnsynced],
    solutions := [exLSolutionReady, exLSolutionBlocked] }

/-- Remote where the probe fails. -/
def envProbeDown : SyncEnv :=
  { health := false,
    patternResp := fun _ => PatternOutcome.httpError,
    batchResp := fun _ => BatchOutcome.exn "unreachable" }

/-- Remote where the probe succeeds, pattern submissions fail with an
HTTP error handled inside `_sync_pattern`, and the batch would accept
everything. -/
def envHttpFail : SyncEnv :=
  { health := true,
    patternResp := fun _ => PatternOutcome.httpError,
    batchResp := fun _ => BatchOutcome.success 0 0 }

/-- Remote where the probe succeeds and every pattern submission
raises an exception that escapes `_sync_pattern`. -/
def envExnFail : SyncEnv :=
  { health := true,
    patternResp := fun _ => PatternOutcome.exn "boom",
    batchResp := fun _ => BatchOutcome.exn "batch down" }

/-- Remote where the probe succeeds, pattern submission fails with a
handled HTTP error, and the batch returns accepted 2 / failed 1. -/
def envBatchOK : SyncEnv :=
  { health := true,
    patternResp := fun _ => PatternOutcome.httpError,
    batchResp := fun _ => BatchOutcome.success 2 1 }

/-! ## Shared helper lemmas -/

/-- Mapping a function that fixes every member of a list is the
identity on that list. -/
lemma map_eq_self_of_mem {α : Type} (l : List α) (f : α → α)
    (h : ∀ a ∈ l, f a = a) : l.map f = l := by
  induction l with
  | nil => rfl
  | cons a t ih =>
      simp only [List.map_cons, h a (List.mem_cons_self a t),
        ih (fun b hb => h b (List.mem_cons_of_mem a hb))]

/-- When the fractional part is below one half, rounding half-to-even
is just the floor. -/
lemma roundHalfEven_of_lt (q : ℚ) (h : q - (⌊q⌋ : ℚ) < 1 / 2) :
    roundHalfEven q = ⌊q⌋ := by
  simp only [roundHalfEven]
  rw [if_pos h]

/-- Rounding an integer (as a rational) to two decimals returns it
unchanged. -/
lemma round2_intCast (n : ℤ) : round2 ((n : ℚ)) = (n : ℚ) := by
  have hcast : ((n : ℚ) * 100) = (((n * 100 : ℤ)) : ℚ) := by push_cast; ring
  have hfloor : ⌊((n : ℚ) * 100)⌋ = n * 100 := by
    rw [hcast, Int.floor_intCast]
  have hlt : ((n : ℚ) * 100) - ((⌊((n : ℚ) * 100)⌋ : ℤ) : ℚ) < 1 / 2 := by
    rw [hfloor, ← hcast]
    norm_num
  unfold round2
  rw [roundHalfEven_of_lt _ hlt, hfloor]
  push_cast
  rw [mul_div_assoc]
  norm_num

/-- Rounding zero to two decimals gives zero. -/
lemma round2_zero : round2 0 = 0 := by
  have h := round2_intCast 0
  simpa using h

/-! ## C8 — ai_effectiveness: 0.0 with no numeric values, else the
rounded mean -/

/-- C8: `get_advanced_stats` returns `ai_effectiveness = 0` exactly
when no `solution` event carries a numeric effectiveness value in its
metadata, and otherwise returns the arithmetic mean of those values
rounded to two decimals (the Python truthiness check `if result`
collapses a zero mean to the same value `0.0` that rounding yields). -/
theorem stats_ai_effectiveness_mean (st : KGState) :
    ((∀ e ∈ st.events, e.type = "solution" → e.metadata.effectiveness = none) →
        (get_advanced_stats st).ai_effectiveness = 0) ∧
    (solutionEffs st ≠ [] →
        (get_advanced_stats st).ai_effectiveness =
          round2 ((solutionEffs st).sum / ((solutionEffs st).length : ℚ))) := by
  constructor
  · intro h
    have heffs : solutionEffs st = [] := by
      unfold solutionEffs
      rw [List.filterMap_eq_nil_iff]
      intro e he
      rw [List.mem_filter] at he
      exact h e he.1 (by simpa using he.2)
    simp [get_advanced_stats, heffs]
  · intro h
    have hne : (solutionEffs st).isEmpty = false := by
      simpa [List.isEmpty_iff] using h
    by_cases hz : (solutionEffs st).sum / ((solutionEffs st).length : ℚ) = 0
    · simp [get_advanced_stats, hne, hz, round2_zero]
    · simp [get_advanced_stats, hne, hz]

/-! ## C9 — quality ratio: rounding, and the division-by-zero guard -/

/-- C9 counterexample: with one error event and three milestone
events, `get_advanced_stats` returns `round(1/3, 2) = 33/100` for the
quality ratio, which differs from the exact ratio `1/3` stated by the
claim. -/
theorem quality_rounding_counterexample :
    (get_advanced_stats exQualitySt).quality ≠
        ((exQualitySt.events.countP (fun e => e.type == "error") : ℚ) /
          ((max (exQualitySt.events.countP (fun e => e.type == "milestone")) 1 : Nat) : ℚ)) ∧
    exQualitySt.events.countP (fun e => e.type == "error") = 1 ∧
    exQualitySt.events.countP (fun e => e.type == "milestone") = 3 := by
  have h2 : exQualitySt.events.countP (fun e => e.type == "error") = 1 := by decide
  have h3 : exQualitySt.events.countP (fun e => e.type == "milestone") = 3 := by decide
  have hfloor : ⌊((1 : ℚ) / 3 * 100)⌋ = 33 := by
    rw [Int.floor_eq_iff]
    constructor <;> norm_num
  have h1 : (get_advanced_stats exQualitySt).quality = 33 / 100 := by
    simp only [get_advanced_stats, h2, h3]
    have hmax : ((max 3 1 : ℕ) : ℚ) = 3 := by norm_num
    rw [hmax]
    unfold round2
    rw [roundHalfEven_of_lt _ (by push_cast; rw [hfloor]; norm_num)]
    push_cast
    rw [hfloor]
    norm_num
  refine ⟨?_, h2, h3⟩
  intro h
  rw [h1, h2, h3] at h
  norm_num at h

/-- C9 amended: `quality` (the `quality_ratio` entry) equals the
number of error events divided by `max(milestone count, 1)` and then
rounded to two decimals; the guard makes the computation well-defined
with zero milestone events, in which case the value is exactly the
error count (an integer, unchanged by rounding). -/
theorem stats_quality_guarded_ratio (st : KGState) :
    (get_advanced_stats st).quality =
        round2 ((((st.events.filter (fun e => e.type == "error")).length : ℚ)) /
          ((max (st.events.filter (fun e => e.type == "milestone")).length 1 : Nat) : ℚ)) ∧
    (st.events.countP (fun e => e.type == "milestone") = 0 →
        (get_advanced_stats st).quality =
          (st.events.countP (fun e => e.type == "error") : ℚ)) := by
  constructor
  · simp [get_advanced_stats, List.countP_eq_length_filter]
  · intro h
    have hq : (get_advanced_stats st).quality =
        round2 ((st.events.countP (fun e => e.type == "error") : ℚ) / ((1 : Nat) : ℚ)) := by
      simp [get_advanced_stats, h]
    rw [hq]
    have : ((st.events.countP (fun e => e.type == "error") : ℚ) / ((1 : Nat) : ℚ))
        = ((st.events.countP (fun e => e.type == "error") : ℤ) : ℚ) := by
      push_cast; ring
    rw [this, round2_intCast]
    push_cast; ring

/-! ## C8 witness -/

/-- C8 witness: with no events the value is exactly 0; with two
solution events of effectiveness 5 and 4 the value is the rounded
mean. -/
theorem stats_ai_effectiveness_mean_witness :
    (get_advanced_stats emptyKG).ai_effectiveness = 0 ∧
    (get_advanced_stats exEffSt).ai_effectiveness =
      round2 ((solutionEffs exEffSt).sum / ((solutionEffs exEffSt).length : ℚ)) :=
  ⟨(stats_ai_effectiveness_mean emptyKG).1 (by intro e he; simp [emptyKG] at he),
   (stats_ai_effectiveness_mean exEffSt).2 (by decide)⟩

/-! ## C9 witness -/

/-- C9 (amended) witness: at the one-error/three-milestone store the
value is the rounded ratio, and at the empty store (zero milestones)
the guard yields exactly the error count. -/
theorem stats_quality_guarded_ratio_witness :
    (get_advanced_stats exQualitySt).quality =
        round2 ((((exQualitySt.events.filter (fun e => e.type == "error")).length : ℚ)) /
          ((max (exQualitySt.events.filter (fun e => e.type == "milestone")).length 1 : Nat) : ℚ)) ∧
    (get_advanced_stats emptyKG).quality =
        (emptyKG.events.countP (fun e => e.type == "error") : ℚ) :=
  ⟨(stats_quality_guarded_ratio exQualitySt).1,
   (stats_quality_guarded_ratio emptyKG).2 (by decide)⟩

/-! ## C6 — add_solution threshold semantics -/

/-- C6: `add_solution` with effectiveness at or above the proven
threshold 4 overwrites the `solution` field of every pattern carrying
that signature; below the threshold the patterns table is exactly as
before; in both cases one `solution` event carrying the effectiveness
and target signature is appended to the event log. -/
theorem add_solution_threshold (st : KGState) (sig text : String) (eff : Int) :
    (4 ≤ eff → ∀ p ∈ (add_solution st sig text eff).1.patterns,
        p.signature = sig → p.solution = some text) ∧
    (eff < 4 → (add_solution st sig text eff).1.patterns = st.patterns) ∧
    (∃ ev, (add_solution st sig text eff).1.events = st.events ++ [ev] ∧
        ev.type = "solution" ∧ ev.content = text ∧
        ev.metadata.effectiveness = some ((eff : ℚ)) ∧
        ev.metadata.target = some sig) := by
  refine ⟨?_, ?_, ?_⟩
  · intro h p hp hsig
    simp only [add_solution, if_pos h] at hp
    rw [List.mem_map] at hp
    obtain ⟨q, hq, rfl⟩ := hp
    by_cases hqs : q.signature == sig
    · simp [hqs]
    · exfalso
      rw [if_neg (by simpa using hqs)] at hsig
      exact hqs (by simp [hsig])
  · intro h
    simp [add_solution, not_le.mpr h]
  · by_cases h : 4 ≤ eff <;>
      exact ⟨{ id := st.nextId, type := "solution", phase := "UNKNOWN",
               content := text,
               metadata := { severity := none, category := none, context := none,
                             signature := none, effectiveness := some ((eff : ℚ)),
                             target := some sig },
               created_at := st.now },
             by simp [add_solution, h], rfl, rfl, rfl, rfl⟩

/-- C6 witness: applying `add_solution` to the store holding the "E1"
pattern, effectiveness 5 overwrites the solution and effectiveness 2
leaves the patterns table unchanged. -/
theorem add_solution_threshold_witness :
    (∀ p ∈ (add_solution exPatternSt "E1" "use a lock" 5).1.patterns,
        p.signature = "E1" → p.solution = some "use a lock") ∧
    (add_solution exPatternSt "E1" "weak fix" 2).1.patterns = exPatternSt.patterns :=
  ⟨(add_solution_threshold exPatternSt "E1" "use a lock" 5).1 (by decide),
   (add_solution_threshold exPatternSt "E1" "weak fix" 2).2.1 (by decide)⟩

/-! ## C10 — add_solution with an unknown signature -/

/-- C10: when no pattern row carries the target signature,
`add_solution` is not an error: the solution event is still inserted
and its id returned, and the patterns table is left entirely
unchanged. -/
theorem add_solution_unknown_signature (st : KGState) (sig text : String) (eff : Int)
    (h : ∀ p ∈ st.patterns, p.signature ≠ sig) :
    (add_solution st sig text eff).1.patterns = st.patterns ∧
    (add_solution st sig text eff).2 = st.nextId ∧
    (∃ ev, (add_solution st sig text eff).1.events = st.events ++ [ev] ∧
        ev.type = "solution" ∧ ev.id = st.nextId) := by
  refine ⟨?_, ?_, ?_⟩
  · by_cases h4 : 4 ≤ eff
    · simp only [add_solution, if_pos h4]
      exact map_eq_self_of_mem _ _ (fun p hp => by
        rw [if_neg (by simpa using h p hp)])
    · simp [add_solution, h4]
  · by_cases h4 : 4 ≤ eff <;> simp [add_solution, h4]
  · by_cases h4 : 4 ≤ eff <;>
      exact ⟨{ id := st.nextId, type := "solution", phase := "UNKNOWN",
               content := text,
               metadata := { severity := none, category := none, context := none,
                             signature := none, effectiveness := some ((eff : ℚ)),
                             target := some sig },
               created_at := st.now },
             by simp [add_solution, h4], rfl, rfl⟩

/-- C10 witness: adding a high-effectiveness solution for a signature
absent from the store keeps the patterns table unchanged, returns the
fresh event id, and appends the solution event. -/
theorem add_solution_unknown_signature_witness :
    (add_solution exPatternSt "absent-sig" "fix" 5).1.patterns = exPatternSt.patterns ∧
    (add_solution exPatternSt "absent-sig" "fix" 5).2 = exPatternSt.nextId ∧
    (∃ ev, (add_solution exPatternSt "absent-sig" "fix" 5).1.events =
        exPatternSt.events ++ [ev] ∧ ev.type = "solution" ∧ ev.id = exPatternSt.nextId) :=
  add_solution_unknown_signature exPatternSt "absent-sig" "fix" 5 (by decide)

/-! ## C7 — signature resolution of capture_error -/

/-- C7: the signature used by `capture_error` for pattern lookup and
recorded in the event metadata is the supplied signature verbatim when
non-empty, and otherwise the deterministic hash of the description,
with an absent and an empty description hashing to the same fixed
value; after the call a pattern row with the resolved signature
exists. -/
theorem capture_error_resolves_signature (st : KGState) (es : String)
    (cat d cx : Option String) (sv : String) :
    (es ≠ "" → resolve_sig es d = es) ∧
    (es = "" → resolve_sig es d = md5Hex (d.getD "")) ∧
    (∀ d1 d2 : Option String, d1.getD "" = d2.getD "" →
        resolve_sig "" d1 = resolve_sig "" d2) ∧
    (resolve_sig "" none = resolve_sig "" (some "")) ∧
    (∃ ev, (capture_error st es cat d cx sv).1.events = st.events ++ [ev] ∧
        ev.metadata.signature = some (resolve_sig es d)) ∧
    0 < (capture_error st es cat d cx sv).1.patterns.countP
          (fun p => p.signature == resolve_sig es d) := by
  refine ⟨fun h => by simp [resolve_sig, h], fun h => by simp [resolve_sig, h],
    fun d1 d2 h => by simp [resolve_sig, h], by simp [resolve_sig], ?_, ?_⟩
  · rcases hf : st.patterns.find? (fun p => p.signature == resolve_sig es d) with _ | px <;>
      exact ⟨capture_event st es cat d cx sv, by simp [capture_error, hf], rfl⟩
  · rcases hf : st.patterns.find? (fun p => p.signature == resolve_sig es d) with _ | px
    · simp only [capture_error, hf]
      rw [List.countP_append]
      simp
    · have hmem := List.mem_of_find?_eq_some hf
      have hpx := List.find?_some hf
      simp only [capture_error, hf]
      rw [List.countP_map]
      rw [List.countP_pos_iff]
      refine ⟨px, hmem, ?_⟩
      simpa using hpx

/-- C7 witness: a non-empty signature is used verbatim (and a pattern
row with it exists after the call); an empty signature falls back to
the hash of the description, identically for an absent and an empty
description. -/
theorem capture_error_resolves_signature_witness :
    resolve_sig "SIG-1" (some "boom") = "SIG-1" ∧
    resolve_sig "" (some "boom") = md5Hex "boom" ∧
    resolve_sig "" none = resolve_sig "" (some "") ∧
    0 < (capture_error emptyKG "SIG-1" none (some "boom") none "medium").1.patterns.countP
          (fun p => p.signature == resolve_sig "SIG-1" (some "boom")) :=
  ⟨(capture_error_resolves_signature emptyKG "SIG-1" none (some "boom") none "medium").1
      (by decide),
   (capture_error_resolves_signature emptyKG "" none (some "boom") none "medium").2.1 rfl,
   (capture_error_resolves_signature emptyKG "" none (some "boom") none "medium").2.2.2.1,
   (capture_error_resolves_signature emptyKG "SIG-1" none (some "boom") none "medium").2.2.2.2.2⟩

/-! ## C3 — fail-fast on a failed connectivity probe -/

/-- C3: when the connectivity probe fails, `sync_all` returns a
summary with zero synced patterns and solutions and a non-empty error
list, and the local store is untouched (no remote-identifier field is
set during the pass). -/
theorem sync_all_fail_fast (env : SyncEnv) (st : LocalStore)
    (h : env.health = false) :
    (sync_all env st).1 = st ∧
    (sync_all env st).2.patterns_synced = 0 ∧
    (sync_all env st).2.solutions_synced = 0 ∧
    (sync_all env st).2.patterns_failed = 0 ∧
    (sync_all env st).2.solutions_failed = 0 ∧
    (sync_all env st).2.errors ≠ [] := by
  simp [sync_all, h]

/-- C3 witness: the fail-fast summary at a concrete store and a remote
whose probe fails. -/
theorem sync_all_fail_fast_witness :
    (sync_all envProbeDown exStore).1 = exStore ∧
    (sync_all envProbeDown exStore).2.patterns_synced = 0 ∧
    (sync_all envProbeDown exStore).2.solutions_synced = 0 ∧
    (sync_all envProbeDown exStore).2.patterns_failed = 0 ∧
    (sync_all envProbeDown exStore).2.solutions_failed = 0 ∧
    (sync_all envProbeDown exStore).2.errors ≠ [] :=
  sync_all_fail_fast envProbeDown exStore rfl

/-! ## C1 — one pattern row per signature, counting occurrences -/

/-- A list whose filtering yields a singleton finds that element. -/
lemma filter_eq_single_find? {α : Type} (p : α → Bool) :
    ∀ (l : List α) (x : α), l.filter p = [x] → l.find? p = some x := by
  intro l
  induction l with
  | nil => intro x h; simp at h
  | cons a t ih =>
      intro x h
      by_cases hpa : p a
      · rw [List.filter_cons_of_pos hpa] at h
        obtain ⟨rfl, -⟩ : a = x ∧ t.filter p = [] := by simpa using h
        exact List.find?_cons_of_pos _ hpa
      · rw [List.filter_cons_of_neg hpa] at h
        rw [List.find?_cons_of_neg]
        · exact ih x h
        · simpa using hpa

/-- Filtering by signature commutes with mapping a
signature-preserving update over the patterns table. -/
lemma filter_map_of_sig_preserving (sig : String) (f : Pattern → Pattern)
    (hf : ∀ q, (f q).signature = q.signature) :
    ∀ l : List Pattern,
      (l.map f).filter (fun p => p.signature == sig) =
        (l.filter (fun p => p.signature == sig)).map f := by
  intro l
  induction l with
  | nil => rfl
  | cons q t ih =>
      simp only [List.map_cons, List.filter_cons]
      have hq : ((f q).signature == sig) = (q.signature == sig) := by rw [hf q]
      rw [hq]
      by_cases h : (q.signature == sig) = true
      · simp [h, ih]
      · simp [h, ih]

/-- One `capture_error` call with a non-empty signature on a store
already holding exactly one pattern row with that signature leaves
exactly that row (occurrence count incremented, last_seen refreshed). -/
lemma capture_error_step_existing (st : KGState) (sig : String)
    (cat d cx : Option String) (sv : String) (hsig : sig ≠ "") (px : Pattern)
    (h : st.patterns.filter (fun p => p.signature == sig) = [px]) :
    (capture_error st sig cat d cx sv).1.patterns.filter
        (fun p => p.signature == sig) =
      [{ px with occurrence_count := px.occurrence_count + 1,
                 last_seen_at := st.now }] := by
  have hres : resolve_sig sig d = sig := by simp [resolve_sig, hsig]
  have hfind : st.patterns.find? (fun p => p.signature == sig) = some px :=
    filter_eq_single_find? _ _ _ h
  simp only [capture_error, hres, hfind]
  rw [filter_map_of_sig_preserving sig _
    (fun q => by by_cases hq : q.id = px.id <;> simp [hq]), h]
  simp

/-- One `capture_error` call with a non-empty signature on a store
holding no pattern row with that signature creates exactly one such
row with occurrence count 1. -/
lemma capture_error_step_new (st : KGState) (sig : String)
    (cat d cx : Option String) (sv : String) (hsig : sig ≠ "")
    (h : st.patterns.filter (fun p => p.signature == sig) = []) :
    (capture_error st sig cat d cx sv).1.patterns.filter
        (fun p => p.signature == sig) =
      [{ id := st.nextId + 1, signature := sig, category := cat,
         description := d, occurrence_count := 1, solution := none,
         first_seen_at := st.now, last_seen_at := st.now }] := by
  have hres : resolve_sig sig d = sig := by simp [resolve_sig, hsig]
  have hfind : st.patterns.find? (fun p => p.signature == sig) = none := by
    rw [List.find?_eq_none]
    intro x hx hpx
    have hxin : x ∈ st.patterns.filter (fun p => p.signature == sig) :=
      List.mem_filter.mpr ⟨hx, hpx⟩
    rw [h] at hxin
    simp at hxin
  simp only [capture_error, hres, hfind]
  rw [List.filter_append, h]
  simp

/-- Running a tail of same-signature captures on a store holding
exactly one row with that signature keeps exactly one row and adds the
number of calls to its occurrence count. -/
lemma captureSeq_unique (sig : String) (hsig : sig ≠ "") :
    ∀ (args : List CaptureArgs) (st : KGState) (px : Pattern),
      st.patterns.filter (fun p => p.signature == sig) = [px] →
      ∃ py, (captureSeq st sig args).patterns.filter
          (fun p => p.signature == sig) = [py] ∧
        py.occurrence_count = px.occurrence_count + args.length := by
  intro args
  induction args with
  | nil => exact fun st px h => ⟨px, h, by simp [captureSeq]⟩
  | cons a rest ih =>
      intro st px h
      have hstep := capture_error_step_existing st sig a.error_category
        a.description a.context a.severity hsig px h
      obtain ⟨py, hpy, hcnt⟩ := ih _ _ hstep
      refine ⟨py, hpy, ?_⟩
      rw [hcnt]
      simp only [List.length_cons]
      omega

/-- C1: for every sequence of `capture_error` calls with the same
non-empty signature on a store not yet holding that signature, exactly
one pattern row with that signature exists afterwards and its
occurrence count equals the number of calls. -/
theorem capture_seq_unique_pattern (st : KGState) (sig : String)
    (args : List CaptureArgs) (hsig : sig ≠ "")
    (h0 : st.patterns.filter (fun p => p.signature == sig) = [])
    (hargs : args ≠ []) :
    (captureSeq st sig args).patterns.countP (fun p => p.signature == sig) = 1 ∧
    ∀ p ∈ (captureSeq st sig args).patterns, p.signature = sig →
      p.occurrence_count = args.length := by
  obtain ⟨a, rest, rfl⟩ := List.exists_cons_of_ne_nil hargs
  have hstep := capture_error_step_new st sig a.error_category
    a.description a.context a.severity hsig h0
  obtain ⟨py, hpy, hcnt⟩ := captureSeq_unique sig hsig rest _ _ hstep
  have hseq : captureSeq st sig (a :: rest) =
      captureSeq (capture_error st sig a.error_category a.description
        a.context a.severity).1 sig rest := rfl
  constructor
  · rw [hseq, List.countP_eq_length_filter, hpy]
    rfl
  · intro p hp hpsig
    rw [hseq] at hp
    have hpfil : p ∈ (captureSeq (capture_error st sig a.error_category
        a.description a.context a.severity).1 sig rest).patterns.filter
          (fun q => q.signature == sig) :=
      List.mem_filter.mpr ⟨hp, by simp [hpsig]⟩
    rw [hpy] at hpfil
    have hpeq : p = py := by simpa using hpfil
    rw [hpeq, hcnt]
    simp only [List.length_cons]
    omega

/-- C1 witness: three captures with signature "E1" on a fresh store
leave exactly one "E1" pattern row with occurrence count 3. -/
theorem capture_seq_unique_pattern_witness :
    (captureSeq emptyKG "E1" exArgs).patterns.countP
        (fun p => p.signature == "E1") = 1 ∧
    ∀ p ∈ (captureSeq emptyKG "E1" exArgs).patterns, p.signature = "E1" →
      p.occurrence_count = exArgs.length :=
  capture_seq_unique_pattern emptyKG "E1" exArgs (by decide) (by decide) (by decide)

/-! ## Sync loop lemmas -/

/-- The pattern loop adds one to `patterns_failed` for exactly the
patterns whose submission attempt fails. -/
lemma run_pattern_loop_patterns_failed (env : SyncEnv) :
    ∀ (ps : List LPattern) (st : LocalStore) (s : Summary),
      (run_pattern_loop env ps st s).2.patterns_failed =
        s.patterns_failed + ps.countP (patternFails env) := by
  intro ps
  induction ps with
  | nil => intro st s; simp [run_pattern_loop]
  | cons p rest ih =>
      intro st s
      simp only [run_pattern_loop]
      rw [ih]
      rcases hr : env.patternResp p with cid | _ | m
      · by_cases hc : cid = ""
        · simp [sync_pattern_step, hr, hc, patternFails, List.countP_cons]
          omega
        · simp [sync_pattern_step, hr, hc, patternFails, List.countP_cons]
      · simp [sync_pattern_step, hr, patternFails, List.countP_cons]
        omega
      · simp [sync_pattern_step, hr, patternFails, List.countP_cons]
        omega

/-- The pattern loop never removes messages from the error list. -/
lemma run_pattern_loop_errors_sub (env : SyncEnv) :
    ∀ (ps : List LPattern) (st : LocalStore) (s : Summary) (m : String),
      m ∈ s.errors → m ∈ (run_pattern_loop env ps st s).2.errors := by
  intro ps
  induction ps with
  | nil => intro st s m hm; simpa [run_pattern_loop] using hm
  | cons p rest ih =>
      intro st s m hm
      simp only [run_pattern_loop]
      apply ih
      rcases hr : env.patternResp p with cid | _ | m2
      · by_cases hc : cid = "" <;> simp [sync_pattern_step, hr, hc, hm]
      · simp [sync_pattern_step, hr, hm]
      · simp [sync_pattern_step, hr]
        exact Or.inl hm

/-- An exception escaping `_sync_pattern` for a pattern of the loop
ends up in the error list. -/
lemma run_pattern_loop_exn_mem (env : SyncEnv) :
    ∀ (ps : List LPattern) (st : LocalStore) (s : Summary) (p : LPattern) (m : String),
      p ∈ ps → env.patternResp p = PatternOutcome.exn m →
      m ∈ (run_pattern_loop env ps st s).2.errors := by
  intro ps
  induction ps with
  | nil => intro st s p m hp; simp at hp
  | cons q rest ih =>
      intro st s p m hp hr
      rcases List.mem_cons.mp hp with rfl | hp2
      · simp only [run_pattern_loop]
        apply run_pattern_loop_errors_sub
        simp [sync_pattern_step, hr]
      · simp only [run_pattern_loop]
        exact ih _ _ p m hp2 hr

/-- The pattern loop does not touch the solutions table. -/
lemma run_pattern_loop_solutions (env : SyncEnv) :
    ∀ (ps : List LPattern) (st : LocalStore) (s : Summary),
      (run_pattern_loop env ps st s).1.solutions = st.solutions := by
  intro ps
  induction ps with
  | nil => intro st s; simp [run_pattern_loop]
  | cons p rest ih =>
      intro st s
      simp only [run_pattern_loop]
      rw [ih]
      rcases hr : env.patternResp p with cid | _ | m
      · by_cases hc : cid = "" <;> simp [sync_pattern_step, hr, hc, mark_pattern_synced]
      · simp [sync_pattern_step, hr]
      · simp [sync_pattern_step, hr]

/-- The pattern loop leaves both solution counters unchanged. -/
lemma run_pattern_loop_solution_counters (env : SyncEnv) :
    ∀ (ps : List LPattern) (st : LocalStore) (s : Summary),
      (run_pattern_loop env ps st s).2.solutions_synced = s.solutions_synced ∧
      (run_pattern_loop env ps st s).2.solutions_failed = s.solutions_failed := by
  intro ps
  induction ps with
  | nil => intro st s; simp [run_pattern_loop]
  | cons p rest ih =>
      intro st s
      simp only [run_pattern_loop]
      rcases hr : env.patternResp p with cid | _ | m
      · by_cases hc : cid = "" <;> simp [sync_pattern_step, hr, hc, ih]
      · simp [sync_pattern_step, hr, ih]
      · simp [sync_pattern_step, hr, ih]

/-- The solution phase leaves `patterns_failed` unchanged. -/
lemma solution_phase_patterns_failed (env : SyncEnv) (st : LocalStore) (s : Summary) :
    (solution_phase env st s).2.patterns_failed = s.patterns_failed := by
  by_cases h1 : (get_unsynced_solutions st).isEmpty
  · simp [solution_phase, h1]
  · by_cases h2 : (build_batch st (get_unsynced_solutions st)).1.isEmpty
    · simp [solution_phase, h1, h2]
    · rcases h3 : env.batchResp (build_batch st (get_unsynced_solutions st)).1 with
        ⟨acc, fl⟩ | m <;> simp [solution_phase, h1, h2, h3]

/-- The solution phase never removes messages from the error list. -/
lemma solution_phase_errors_sub (env : SyncEnv) (st : LocalStore) (s : Summary)
    (m : String) (hm : m ∈ s.errors) : m ∈ (solution_phase env st s).2.errors := by
  by_cases h1 : (get_unsynced_solutions st).isEmpty
  · simpa [solution_phase, h1] using hm
  · by_cases h2 : (build_batch st (get_unsynced_solutions st)).1.isEmpty
    · simpa [solution_phase, h1, h2] using hm
    · rcases h3 : env.batchResp (build_batch st (get_unsynced_solutions st)).1 with
        ⟨acc, fl⟩ | m2 <;> simp [solution_phase, h1, h2, h3, hm]

/-- An exception raised by the batch POST is appended to the error
list by the solution phase. -/
lemma solution_phase_batch_exn (env : SyncEnv) (st : LocalStore) (s : Summary)
    (m : String)
    (h1 : (get_unsynced_solutions st).isEmpty = false)
    (h2 : (build_batch st (get_unsynced_solutions st)).1.isEmpty = false)
    (h3 : env.batchResp (build_batch st (get_unsynced_solutions st)).1 =
      BatchOutcome.exn m) :
    m ∈ (solution_phase env st s).2.errors := by
  simp [solution_phase, h1, h2, h3]

/-! ## C2 — error containment in a reconciliation pass -/

/-- C2 counterexample: with a reachable remote and a pattern whose
submission raises an `httpx.HTTPError` (handled inside
`_sync_pattern`), the pass counts the failure but records nothing in
the summary's error list — refuting the claim that every error raised
while submitting a pattern is recorded there. -/
theorem sync_http_error_unrecorded_counterexample :
    envHttpFail.health = true ∧
    envHttpFail.patternResp exLPatternUnsynced = PatternOutcome.httpError ∧
    exLPatternUnsynced ∈ get_unsynced_patterns exStore ∧
    (sync_all envHttpFail exStore).2.patterns_failed = 1 ∧
    (sync_all envHttpFail exStore).2.errors = [] := by
  decide

/-- C2 amended: with a succeeding probe, `sync_all` returns a summary
in which `patterns_failed` counts exactly the failed pattern attempts,
every exception escaping the per-pattern submit helper is recorded in
the error list, and an exception of the batch POST (when one is made)
is recorded in the error list; handled per-pattern HTTP errors are
counted but not recorded. -/
theorem sync_all_absorbs_submission_errors (env : SyncEnv) (st : LocalStore)
    (h : env.health = true) :
    (sync_all env st).2.patterns_failed =
        (get_unsynced_patterns st).countP (patternFails env) ∧
    (∀ p ∈ get_unsynced_patterns st, ∀ m,
        env.patternResp p = PatternOutcome.exn m →
        m ∈ (sync_all env st).2.errors) ∧
    (∀ m, batchOutcomeOf env st = some (BatchOutcome.exn m) →
        m ∈ (sync_all env st).2.errors) := by
  have hsync : sync_all env st =
      solution_phase env (pattern_phase env st).1 (pattern_phase env st).2 := by
    simp [sync_all, h]
  refine ⟨?_, ?_, ?_⟩
  · rw [hsync, solution_phase_patterns_failed]
    unfold pattern_phase
    rw [run_pattern_loop_patterns_failed]
    simp [init_summary]
  · intro p hp m hm
    rw [hsync]
    apply solution_phase_errors_sub
    unfold pattern_phase
    exact run_pattern_loop_exn_mem env _ _ _ p m hp hm
  · intro m hm
    rw [hsync]
    unfold batchOutcomeOf at hm
    rw [if_neg (by simp [h])] at hm
    by_cases h1 : (get_unsynced_solutions (pattern_phase env st).1).isEmpty
    · rw [if_pos h1] at hm
      simp at hm
    · rw [if_neg h1] at hm
      by_cases h2 : (build_batch (pattern_phase env st).1
          (get_unsynced_solutions (pattern_phase env st).1)).1.isEmpty
      · rw [if_pos h2] at hm
        simp at hm
      · rw [if_neg h2] at hm
        have h3 : env.batchResp (build_batch (pattern_phase env st).1
            (get_unsynced_solutions (pattern_phase env st).1)).1 =
            BatchOutcome.exn m := by simpa using hm
        exact solution_phase_batch_exn env _ _ m
          (by simpa using h1) (by simpa using h2) h3

/-- C2 (amended) witness: with every pattern submission raising an
escaped exception at a concrete store, the failure count matches and
the message is recorded. -/
theorem sync_all_absorbs_submission_errors_witness :
    (sync_all envExnFail exStore).2.patterns_failed =
        (get_unsynced_patterns exStore).countP (patternFails envExnFail) ∧
    (∀ p ∈ get_unsynced_patterns exStore, ∀ m,
        envExnFail.patternResp p = PatternOutcome.exn m →
        m ∈ (sync_all envExnFail exStore).2.errors) ∧
    (∀ m, batchOutcomeOf envExnFail exStore = some (BatchOutcome.exn m) →
        m ∈ (sync_all envExnFail exStore).2.errors) :=
  sync_all_absorbs_submission_errors envExnFail exStore rfl

/-! ## C4 — solutions of unsynced patterns never enter the batch -/

/-- The batch payload list consists exactly of the payloads of the
solutions whose pattern has a truthy central id. -/
lemma build_batch_payloads (st : LocalStore) :
    ∀ sols : List LSolution,
      (build_batch st sols).1 = sols.filterMap (fun sol =>
        (central_cid_of st sol.pattern_id).map
          (fun cid => solution_payload cid sol)) := by
  intro sols
  induction sols with
  | nil => rfl
  | cons sol rest ih =>
      simp only [build_batch, List.filterMap_cons]
      rcases h : central_cid_of st sol.pattern_id with _ | cid <;> simp [h, ih]

/-- The included local ids are exactly those of the solutions whose
pattern has a truthy central id, in traversal order. -/
lemma build_batch_included (st : LocalStore) :
    ∀ sols : List LSolution,
      (build_batch st sols).2.1 = (sols.filter (fun sol =>
        (central_cid_of st sol.pattern_id).isSome)).map (fun sol => sol.id) := by
  intro sols
  induction sols with
  | nil => rfl
  | cons sol rest ih =>
      simp only [build_batch, List.filter_cons]
      rcases h : central_cid_of st sol.pattern_id with _ | cid <;> simp [h, ih]

/-- The skipped counter counts exactly the solutions whose pattern has
no truthy central id. -/
lemma build_batch_skipped (st : LocalStore) :
    ∀ sols : List LSolution,
      (build_batch st sols).2.2 = sols.countP (fun sol =>
        (central_cid_of st sol.pattern_id).isNone) := by
  intro sols
  induction sols with
  | nil => rfl
  | cons sol rest ih =>
      simp only [build_batch, List.countP_cons]
      rcases h : central_cid_of st sol.pattern_id with _ | cid <;> simp [h, ih]

/-- The solution phase adds at least the skipped count to
`solutions_failed`. -/
lemma solution_phase_failed_ge (env : SyncEnv) (st : LocalStore) (s : Summary) :
    s.solutions_failed + (build_batch st (get_unsynced_solutions st)).2.2 ≤
      (solution_phase env st s).2.solutions_failed := by
  by_cases h1 : (get_unsynced_solutions st).isEmpty
  · have hnil : get_unsynced_solutions st = [] := by
      simpa [List.isEmpty_iff] using h1
    simp [solution_phase, h1, hnil, build_batch]
  · by_cases h2 : (build_batch st (get_unsynced_solutions st)).1.isEmpty
    · simp [solution_phase, h1, h2]
    · rcases h3 : env.batchResp (build_batch st (get_unsynced_solutions st)).1 with
        ⟨acc, fl⟩ | m <;> simp [solution_phase, h1, h2, h3]

/-- C4: during a pass with a succeeding probe, a solution whose owning
pattern has no truthy remote identifier contributes no payload to the
batch (the payload list is exactly the image of the cid-bearing
solutions, and the blocked solution's id is not among the included
ids), and each such solution is counted in the pass's
`solutions_failed`. -/
theorem sync_unsynced_pattern_blocks_solution (env : SyncEnv) (st : LocalStore)
    (h : env.health = true)
    (hnd : (st.solutions.map (fun s => s.id)).Nodup) :
    (sync_batch_of env st).1 =
      (get_unsynced_solutions (pattern_phase env st).1).filterMap (fun sol =>
        (central_cid_of (pattern_phase env st).1 sol.pattern_id).map
          (fun cid => solution_payload cid sol)) ∧
    (sync_batch_of env st).2.2 =
      (get_unsynced_solutions (pattern_phase env st).1).countP (fun sol =>
        (central_cid_of (pattern_phase env st).1 sol.pattern_id).isNone) ∧
    (∀ sol ∈ get_unsynced_solutions (pattern_phase env st).1,
        central_cid_of (pattern_phase env st).1 sol.pattern_id = none →
        sol.id ∉ (sync_batch_of env st).2.1) ∧
    (sync_batch_of env st).2.2 ≤ (sync_all env st).2.solutions_failed := by
  have hsols : (pattern_phase env st).1.solutions = st.solutions := by
    unfold pattern_phase
    exact run_pattern_loop_solutions env _ _ _
  have hndsols : ((get_unsynced_solutions (pattern_phase env st).1).map
      (fun s => s.id)).Nodup := by
    apply hnd.sublist
    rw [← hsols]
    exact (List.filter_sublist _).map _
  refine ⟨build_batch_payloads _ _, build_batch_skipped _ _, ?_, ?_⟩
  · intro sol hsol hcid hmem
    rw [sync_batch_of, build_batch_included] at hmem
    rw [List.mem_map] at hmem
    obtain ⟨sol2, hsol2, hid⟩ := hmem
    have hsol2mem := List.mem_of_mem_filter hsol2
    have hsome : (central_cid_of (pattern_phase env st).1 sol2.pattern_id).isSome := by
      have := List.of_mem_filter hsol2
      simpa using this
    have heq : sol2 = sol :=
      List.inj_on_of_nodup_map hndsols hsol2mem hsol hid
    rw [heq, hcid] at hsome
    simp at hsome
  · have hsync : sync_all env st =
        solution_phase env (pattern_phase env st).1 (pattern_phase env st).2 := by
      simp [sync_all, h]
    rw [hsync]
    have hge := solution_phase_failed_ge env (pattern_phase env st).1
      (pattern_phase env st).2
    calc (sync_batch_of env st).2.2
        ≤ (pattern_phase env st).2.solutions_failed + (sync_batch_of env st).2.2 := by omega
      _ ≤ _ := hge

/-- C4 witness: at a concrete store, the solution owned by the
still-unsynced pattern is excluded from the batch and counted as
failed. -/
theorem sync_unsynced_pattern_blocks_solution_witness :
    (sync_batch_of envBatchOK exStore).1 =
      (get_unsynced_solutions (pattern_phase envBatchOK exStore).1).filterMap (fun sol =>
        (central_cid_of (pattern_phase envBatchOK exStore).1 sol.pattern_id).map
          (fun cid => solution_payload cid sol)) ∧
    (sync_batch_of envBatchOK exStore).2.2 =
      (get_unsynced_solutions (pattern_phase envBatchOK exStore).1).countP (fun sol =>
        (central_cid_of (pattern_phase envBatchOK exStore).1 sol.pattern_id).isNone) ∧
    (∀ sol ∈ get_unsynced_solutions (pattern_phase envBatchOK exStore).1,
        central_cid_of (pattern_phase envBatchOK exStore).1 sol.pattern_id = none →
        sol.id ∉ (sync_batch_of envBatchOK exStore).2.1) ∧
    (sync_batch_of envBatchOK exStore).2.2 ≤
      (sync_all envBatchOK exStore).2.solutions_failed :=
  sync_unsynced_pattern_blocks_solution envBatchOK exStore rfl (by decide)

/-! ## C5 — 2xx batch response: marking and summary counts -/

/-- Folding `mark_solution_synced` over a list of local ids marks
exactly the rows whose id is in the list. -/
lemma foldl_mark_solutions_eq (cid : String) :
    ∀ (L : List Nat) (st : LocalStore),
      (L.foldl (fun s sid => mark_solution_synced s sid cid) st).solutions =
        st.solutions.map (fun sol =>
          if sol.id ∈ L then { sol with central_solution_id := some cid }
          else sol) := by
  intro L
  induction L with
  | nil =>
      intro st
      symm
      apply map_eq_self_of_mem
      intro a ha
      simp
  | cons sid rest ih =>
      intro st
      simp only [List.foldl_cons]
      rw [ih]
      simp only [mark_solution_synced]
      rw [List.map_map]
      apply List.map_congr_left
      intro sol hsol
      by_cases hs : sol.id = sid
      · by_cases hr : sol.id ∈ rest <;>
          simp [Function.comp, hs, hr, List.mem_cons]
      · by_cases hr : sol.id ∈ rest <;>
          simp [Function.comp, hs, hr, List.mem_cons]

/-- Shape of the solution phase when the batch POST succeeds. -/
lemma solution_phase_success (env : SyncEnv) (st : LocalStore) (s : Summary)
    (accepted failed : Nat)
    (h1 : (get_unsynced_solutions st).isEmpty = false)
    (h2 : (build_batch st (get_unsynced_solutions st)).1.isEmpty = false)
    (hr : env.batchResp (build_batch st (get_unsynced_solutions st)).1 =
      BatchOutcome.success accepted failed) :
    (solution_phase env st s).1.solutions =
      st.solutions.map (fun sol =>
        if sol.id ∈ (build_batch st (get_unsynced_solutions st)).2.1 then
          { sol with central_solution_id := some "batch-synced" }
        else sol) ∧
    (solution_phase env st s).2.solutions_synced = s.solutions_synced + accepted ∧
    (solution_phase env st s).2.solutions_failed =
      (s.solutions_failed + (build_batch st (get_unsynced_solutions st)).2.2) + failed := by
  refine ⟨?_, ?_, ?_⟩
  · simp only [solution_phase, h1, Bool.false_eq_true, if_false, h2, hr]
    exact foldl_mark_solutions_eq "batch-synced" _ st
  · simp [solution_phase, h1, h2, hr]
  · simp [solution_phase, h1, h2, hr]

/-- C5: in a pass whose batch POST returns 2xx with counts
(accepted, failed), every solution included in the batch is marked
synced locally, while the summary takes `solutions_synced` from the
remote's accepted count and `solutions_failed` from the skipped count
plus the remote's failed count — not from the number of items marked. -/
theorem sync_batch_success_marks_included (env : SyncEnv) (st : LocalStore)
    (h : env.health = true) (accepted failed : Nat)
    (hb : (sync_batch_of env st).1 ≠ [])
    (hr : env.batchResp (sync_batch_of env st).1 =
      BatchOutcome.success accepted failed) :
    (sync_all env st).2.solutions_synced = accepted ∧
    (sync_all env st).2.solutions_failed = (sync_batch_of env st).2.2 + failed ∧
    (∀ sid ∈ (sync_batch_of env st).2.1, ∀ sol ∈ (sync_all env st).1.solutions,
        sol.id = sid → sol.central_solution_id = some "batch-synced") := by
  have hsync : sync_all env st =
      solution_phase env (pattern_phase env st).1 (pattern_phase env st).2 := by
    simp [sync_all, h]
  have h1 : (get_unsynced_solutions (pattern_phase env st).1).isEmpty = false := by
    rcases hcase : get_unsynced_solutions (pattern_phase env st).1 with _ | ⟨a, t⟩
    · exfalso
      apply hb
      rw [sync_batch_of, hcase]
      rfl
    · rfl
  have h2 : (build_batch (pattern_phase env st).1
      (get_unsynced_solutions (pattern_phase env st).1)).1.isEmpty = false := by
    simp only [List.isEmpty_iff, List.isEmpty_eq_false]
    exact hb
  have hcounters := run_pattern_loop_solution_counters env
    (get_unsynced_patterns st) st init_summary
  have hsucc := solution_phase_success env (pattern_phase env st).1
    (pattern_phase env st).2 accepted failed h1 h2 hr
  refine ⟨?_, ?_, ?_⟩
  · rw [hsync, hsucc.2.1]
    have : (pattern_phase env st).2.solutions_synced = 0 := by
      unfold pattern_phase
      rw [hcounters.1]
      rfl
    rw [this]
    omega
  · rw [hsync, hsucc.2.2]
    have : (pattern_phase env st).2.solutions_failed = 0 := by
      unfold pattern_phase
      rw [hcounters.2]
      rfl
    rw [this]
    simp only [sync_batch_of]
    omega
  · intro sid hsid sol hsol hid
    rw [hsync] at hsol
    rw [hsucc.1] at hsol
    rw [List.mem_map] at hsol
    obtain ⟨q, hq, rfl⟩ := hsol
    by_cases hqin : q.id ∈ (build_batch (pattern_phase env st).1
        (get_unsynced_solutions (pattern_phase env st).1)).2.1
    · simp [hqin]
    · exfalso
      rw [if_neg hqin] at hid
      exact hqin (hid ▸ hsid)

/-- C5 witness: at a concrete store whose batch contains the one ready
solution and a remote answering accepted 2 / failed 1, the included
solution is marked and the summary takes the remote's counts. -/
theorem sync_batch_success_marks_included_witness :
    (sync_all envBatchOK exStore).2.solutions_synced = 2 ∧
    (sync_all envBatchOK exStore).2.solutions_failed =
      (sync_batch_of envBatchOK exStore).2.2 + 1 ∧
    (∀ sid ∈ (sync_batch_of envBatchOK exStore).2.1,
        ∀ sol ∈ (sync_all envBatchOK exStore).1.solutions,
        sol.id = sid → sol.central_solution_id = some "batch-synced") :=
  sync_batch_success_marks_included envBatchOK exStore rfl 2 1
    (by decide) (by decide)

end Nebula
